import Mathlib

/-!
# Verification of the `image_zoom_lens` Streamlit component

Shallow embedding of `src/image_zoom_lens/__init__.py` (the Python wrapper
`image_zoom_lens`) and of the keyword surface of its caller
`src/demo/demo_app.py`.  Machine values are modelled as `Int` (Python int)
and `ℚ` (Python float arithmetic on the decimal literals used here is
exact, so `ℚ` is a faithful model of the comparisons and `min`/`max`
performed by the code); Python strings are Lean `String`s.
-/

namespace ImageZoomLens

/-- Line 72 of `__init__.py`: `lens_size = max(50, min(300, lens_size))`. -/
def clampLensSize (x : Int) : Int := max 50 (min 300 x)

/-- Line 73 of `__init__.py`: `zoom_level = max(1.0, min(5.0, zoom_level))`. -/
def clampZoomLevel (v : ℚ) : ℚ := max 1 (min 5 v)

/-- Model of Python `str.lower()` restricted to its ASCII behaviour
(`Char.toLower` lowercases exactly `A`-`Z`); every string the source
compares against is ASCII. -/
def pyLower (s : String) : String := ⟨s.data.map Char.toLower⟩

/-- Lines 74-79 of `__init__.py`:
`download_format = download_format.lower()`, then fall back to `'jpg'`
when the lowered value is not one of `['jpg', 'jpeg', 'png']`, then
normalize `'jpeg'` to `'jpg'`. -/
def normalizeFormat (s : String) : String :=
  let f := pyLower s
  let f := if f = "jpg" ∨ f = "jpeg" ∨ f = "png" then f else "jpg"
  if f = "jpeg" then "jpg" else f

/-- The keyword parameters of `image_zoom_lens` (lines 22-28 of
`__init__.py`). -/
structure Params where
  image_url : String
  lens_size : Int
  zoom_level : ℚ
  download_format : String
  deriving DecidableEq, Repr

/-- Lines 71-79 of `__init__.py` (`# Validate parameters`): clamp
`lens_size` and `zoom_level`, normalize `download_format`; `image_url`
is not touched.  The Python code reassigns the local variables in place;
here the reassigned values are collected in a `Params` record. -/
def validateParams (p : Params) : Params :=
  { image_url := p.image_url
    lens_size := clampLensSize p.lens_size
    zoom_level := clampZoomLevel p.zoom_level
    download_format := normalizeFormat p.download_format }

/-! ## Python `str.replace`

`replaceAllFuel` scans left to right and replaces every non-overlapping
occurrence, exactly as Python's `str.replace(old, new)` does for a
non-empty `old` (the source only ever replaces non-empty patterns, and
the model leaves the string unchanged when `old` is empty).  Fuel is
structural so that every application reduces inside the kernel; fuel
`s.length` is always enough because each step consumes at least one
character. -/

def replaceAllFuel : Nat → List Char → List Char → List Char → List Char
  | 0, s, _, _ => s
  | _ + 1, [], _, _ => []
  | fuel + 1, c :: rest, old, new =>
    if !old.isEmpty && old.isPrefixOf (c :: rest) then
      new ++ replaceAllFuel fuel ((c :: rest).drop old.length) old new
    else
      c :: replaceAllFuel fuel rest old new

/-- Model of Python `s.replace(old, new)` for the non-empty patterns the
source uses. -/
def pyReplace (s old new : String) : String :=
  ⟨replaceAllFuel s.data.length s.data old.data new.data⟩

/-- `containsSub s old = true` iff a (non-empty) occurrence of `old`
starts at some position of `s`; this is the occurrence notion that
`replaceAllFuel` rewrites. -/
def containsSub : List Char → List Char → Bool
  | [], _ => false
  | c :: rest, old => (!old.isEmpty && old.isPrefixOf (c :: rest)) || containsSub rest old

/-- Model of Python `str(float)` for the values interpolated by the
f-string on line 92: integral values print with a trailing `.0`; the
digit strings of non-integral values are irrelevant to every theorem
below, so they are rendered as the rational's `toString`. -/
def pyFloatStr (q : ℚ) : String :=
  if q.den = 1 then toString q.num ++ ".0" else toString q

/-- Lines 87-105 of `__init__.py`: the chain of six
`html_template.replace(...)` calls that splices the (already validated)
parameter values into the HTML/script template by direct text
replacement. -/
def substituteParams (template url : String) (ls : Int) (zl : ℚ) (fmt : String) : String :=
  pyReplace
    (pyReplace
      (pyReplace
        (pyReplace
          (pyReplace
            (pyReplace template
              "let imageUrl = '';"
              ("let imageUrl = '" ++ url ++ "';"))
            "let currentZoomLevel = 2;"
            ("let currentZoomLevel = " ++ pyFloatStr zl ++ ";"))
          "let lensSize = 150;"
          ("let lensSize = " ++ toString ls ++ ";"))
        "let downloadFormat = 'jpg';"
        ("let downloadFormat = '" ++ fmt ++ "';"))
      "mainImage.src = imageUrl;"
      ("mainImage.src = \"" ++ url ++ "\";"))
    "zoomLensImage.src = imageUrl;"
    ("zoomLensImage.src = \"" ++ url ++ "\";")

/-- The body of `image_zoom_lens` (lines 22-108 of `__init__.py`): the
defaults of the optional parameters are those of the Python signature
(`lens_size=150`, `zoom_level=2.0`, `download_format='jpg'`); the result
is the `html_content` string handed to `components.html`, the only
configuration-dependent output of the function.  The template read from
`frontend/index.html` (a file of the repository outside `src/`) is a
parameter. -/
def image_zoom_lens (template : String) (image_url : String)
    (lens_size : Int := 150) (zoom_level : ℚ := 2)
    (download_format : String := "jpg") : String :=
  let p := validateParams ⟨image_url, lens_size, zoom_level, download_format⟩
  substituteParams template p.image_url p.lens_size p.zoom_level p.download_format

/-- The keyword arguments accepted by the signature of `image_zoom_lens`
(lines 22-28 of `__init__.py`). -/
def acceptedKeywords : List String :=
  ["image_url", "lens_size", "zoom_level", "download_format", "key"]

/-- The keyword arguments used by the call in `src/demo/demo_app.py`
lines 152-159. -/
def demoCallKeywords : List String :=
  ["image", "lens_size", "zoom_level", "download_format", "lens_shape", "key"]

/-! ## Helper lemmas -/

theorem clampLensSize_mem (x : Int) : 50 ≤ clampLensSize x ∧ clampLensSize x ≤ 300 :=
  ⟨le_max_left _ _, max_le (by norm_num) (min_le_left _ _)⟩

theorem clampLensSize_eq_self {x : Int} (h1 : 50 ≤ x) (h2 : x ≤ 300) :
    clampLensSize x = x := by
  rw [clampLensSize, min_eq_right h2, max_eq_right h1]

theorem clampLensSize_idem (x : Int) :
    clampLensSize (clampLensSize x) = clampLensSize x :=
  clampLensSize_eq_self (clampLensSize_mem x).1 (clampLensSize_mem x).2

theorem clampZoomLevel_mem (v : ℚ) : 1 ≤ clampZoomLevel v ∧ clampZoomLevel v ≤ 5 :=
  ⟨le_max_left _ _, max_le (by norm_num) (min_le_left _ _)⟩

theorem clampZoomLevel_eq_self {v : ℚ} (h1 : 1 ≤ v) (h5 : v ≤ 5) :
    clampZoomLevel v = v := by
  rw [clampZoomLevel, min_eq_right h5, max_eq_right h1]

theorem clampZoomLevel_idem (v : ℚ) :
    clampZoomLevel (clampZoomLevel v) = clampZoomLevel v :=
  clampZoomLevel_eq_self (clampZoomLevel_mem v).1 (clampZoomLevel_mem v).2

theorem normalizeFormat_mem (s : String) :
    normalizeFormat s = "jpg" ∨ normalizeFormat s = "png" := by
  simp only [normalizeFormat]
  by_cases h : pyLower s = "jpg" ∨ pyLower s = "jpeg" ∨ pyLower s = "png"
  · rw [if_pos h]
    rcases h with h | h | h <;> rw [h] <;> simp
  · rw [if_neg h]
    simp

theorem normalizeFormat_idem (s : String) :
    normalizeFormat (normalizeFormat s) = normalizeFormat s := by
  rcases normalizeFormat_mem s with h | h <;> rw [h] <;> decide

theorem replaceAllFuel_nil (n : Nat) (old new : List Char) :
    replaceAllFuel n [] old new = [] := by
  cases n <;> rfl

theorem replaceAllFuel_of_not_contains (old new : List Char) :
    ∀ (n : Nat) (s : List Char), containsSub s old = false →
      replaceAllFuel n s old new = s := by
  intro n
  induction n with
  | zero => intro s _; rfl
  | succ n ih =>
    intro s h
    cases s with
    | nil => rfl
    | cons c rest =>
      rw [containsSub, Bool.or_eq_false_iff] at h
      rw [replaceAllFuel, if_neg (by rw [h.1]; exact Bool.false_ne_true), ih rest h.2]

theorem pyReplace_of_not_contains (s old new : String)
    (h : containsSub s.data old.data = false) : pyReplace s old new = s := by
  rw [pyReplace, replaceAllFuel_of_not_contains _ _ _ _ h]

theorem isPrefixOf_self (l : List Char) : l.isPrefixOf l = true := by
  induction l with
  | nil => rfl
  | cons c cs ih => simp [List.isPrefixOf_cons₂, ih]

theorem replaceAllFuel_self (old new : List Char) (h : old ≠ []) :
    replaceAllFuel old.length old old new = new := by
  cases old with
  | nil => exact absurd rfl h
  | cons c cs =>
    rw [List.length_cons, replaceAllFuel, if_pos (by simp [isPrefixOf_self]),
      List.length_cons, List.drop_succ_cons, List.drop_length,
      replaceAllFuel_nil, List.append_nil]

theorem pyReplace_self (old new : String) (h : old.data ≠ []) :
    pyReplace old old new = new := by
  cases new with
  | mk nd => rw [pyReplace]; exact congrArg String.mk (replaceAllFuel_self old.data nd h)

/-! ## Claims -/

/-- C1, counterexample: the claim that the configuration values are never
interpolated into executable content by direct text replacement is false:
on the template consisting of the `imageUrl` initialization statement, the
emitted HTML is that script statement with the configured url spliced in
as text, and two different urls yield two different emitted contents. -/
theorem url_spliced_counterexample :
    image_zoom_lens "let imageUrl = '';" "x.png" = "let imageUrl = 'x.png';"
    ∧ image_zoom_lens "let imageUrl = '';" "y.png" = "let imageUrl = 'y.png';" := by
  constructor <;> decide

/-- C1, amended: the component passes the configuration to the frontend
by interpolating the values into the HTML/script template by direct text
replacement: whenever the spliced `imageUrl` statement contains none of
the five later replacement patterns, the content emitted for the
`imageUrl` initialization statement is exactly that statement with the
url spliced in verbatim, whatever the other configuration values are. -/
theorem url_spliced_into_template (url : String) (ls : Int) (zl : ℚ) (fmt : String)
    (h2 : containsSub ("let imageUrl = '" ++ url ++ "';").data
      "let currentZoomLevel = 2;".data = false)
    (h3 : containsSub ("let imageUrl = '" ++ url ++ "';").data
      "let lensSize = 150;".data = false)
    (h4 : containsSub ("let imageUrl = '" ++ url ++ "';").data
      "let downloadFormat = 'jpg';".data = false)
    (h5 : containsSub ("let imageUrl = '" ++ url ++ "';").data
      "mainImage.src = imageUrl;".data = false)
    (h6 : containsSub ("let imageUrl = '" ++ url ++ "';").data
      "zoomLensImage.src = imageUrl;".data = false) :
    image_zoom_lens "let imageUrl = '';" url ls zl fmt
      = "let imageUrl = '" ++ url ++ "';" := by
  show substituteParams "let imageUrl = '';" url (clampLensSize ls) (clampZoomLevel zl)
      (normalizeFormat fmt) = _
  rw [substituteParams, pyReplace_self _ _ (by decide),
    pyReplace_of_not_contains _ _ _ h2, pyReplace_of_not_contains _ _ _ h3,
    pyReplace_of_not_contains _ _ _ h4, pyReplace_of_not_contains _ _ _ h5,
    pyReplace_of_not_contains _ _ _ h6]

theorem url_spliced_into_template_witness :
    image_zoom_lens "let imageUrl = '';" "https://example.com/pic.jpg" 150 2 "jpg"
      = "let imageUrl = 'https://example.com/pic.jpg';" :=
  url_spliced_into_template "https://example.com/pic.jpg" 150 2 "jpg"
    (by decide) (by decide) (by decide) (by decide) (by decide)

/-- C2: the signature of `image_zoom_lens` accepts no `lens_shape` (nor
`image`) keyword, although the repository's own demo app passes both, so
the call in `demo_app.py` lines 152-159 raises a `TypeError`. -/
theorem lens_shape_keyword_missing :
    acceptedKeywords.contains "lens_shape" = false
    ∧ demoCallKeywords.contains "lens_shape" = true
    ∧ acceptedKeywords.contains "image" = false
    ∧ demoCallKeywords.contains "image" = true
    ∧ acceptedKeywords.contains "image_url" = true
    ∧ demoCallKeywords.contains "image_url" = false := by
  decide

/-- C3: every `lens_size` input below 50 is stored as 50 and every input
above 300 is stored as 300, both in the clamp itself and in the validated
parameter record. -/
theorem lens_size_out_of_range_clamps_to_bound (x : Int) :
    (x < 50 → clampLensSize x = 50)
    ∧ (300 < x → clampLensSize x = 300)
    ∧ ∀ (url fmt : String) (zl : ℚ),
        (validateParams ⟨url, x, zl, fmt⟩).lens_size = clampLensSize x := by
  refine ⟨fun h => ?_, fun h => ?_, fun _ _ _ => rfl⟩
  · rw [clampLensSize, min_eq_right (by omega : x ≤ 300), max_eq_left (by omega : x ≤ 50)]
  · rw [clampLensSize, min_eq_left (by omega : (300 : Int) ≤ x),
      max_eq_right (by omega : (50 : Int) ≤ 300)]

theorem lens_size_out_of_range_clamps_to_bound_witness :
    clampLensSize 10 = 50 ∧ clampLensSize 999 = 300 :=
  ⟨(lens_size_out_of_range_clamps_to_bound 10).1 (by decide),
   (lens_size_out_of_range_clamps_to_bound 999).2.1 (by decide)⟩

/-- C4: for every `zoom_level` input, the level stored by parameter
validation is exactly `clamp(v, 1.0, 5.0)` and lies in `[1.0, 5.0]`, and
the emitted HTML is built from that clamped value — the single path from
the inputs to the emitted content passes through the clamp. -/
theorem zoom_level_clamped_in_range (t url : String) (ls : Int) (zl : ℚ) (fmt : String) :
    (validateParams ⟨url, ls, zl, fmt⟩).zoom_level = max 1 (min 5 zl)
    ∧ 1 ≤ (validateParams ⟨url, ls, zl, fmt⟩).zoom_level
    ∧ (validateParams ⟨url, ls, zl, fmt⟩).zoom_level ≤ 5
    ∧ image_zoom_lens t url ls zl fmt
      = substituteParams t url (clampLensSize ls) (clampZoomLevel zl) (normalizeFormat fmt) :=
  ⟨rfl, (clampZoomLevel_mem zl).1, (clampZoomLevel_mem zl).2, rfl⟩

/-- C5: every `download_format` whose lowercase form is not one of the
recognized alternatives falls back to `'jpg'`; in particular `"bmp"`
yields `"jpg"`.  The normalization is a total function: no input is
rejected. -/
theorem unsupported_format_falls_back_to_jpg :
    (∀ s : String,
      ¬(pyLower s = "jpg" ∨ pyLower s = "jpeg" ∨ pyLower s = "png") →
        normalizeFormat s = "jpg")
    ∧ normalizeFormat "bmp" = "jpg" := by
  refine ⟨fun s h => ?_, by decide⟩
  simp only [normalizeFormat]
  rw [if_neg h, if_neg (by decide : ¬("jpg" : String) = "jpeg")]

theorem unsupported_format_falls_back_to_jpg_witness :
    normalizeFormat "gif" = "jpg" :=
  unsupported_format_falls_back_to_jpg.1 "gif" (by decide)

/-- C6: parameter validation is a total function on all inputs — every
`lens_size` and `zoom_level`, however far out of range, produces a
validated record (nothing is rejected and no error value exists), whose
fields are the clamped/normalized values, all in range. -/
theorem validation_total_never_rejects (url : String) (ls : Int) (zl : ℚ) (fmt : String) :
    validateParams ⟨url, ls, zl, fmt⟩
      = ⟨url, clampLensSize ls, clampZoomLevel zl, normalizeFormat fmt⟩
    ∧ 50 ≤ clampLensSize ls ∧ clampLensSize ls ≤ 300
    ∧ 1 ≤ clampZoomLevel zl ∧ clampZoomLevel zl ≤ 5
    ∧ (normalizeFormat fmt = "jpg" ∨ normalizeFormat fmt = "png") :=
  ⟨rfl, (clampLensSize_mem ls).1, (clampLensSize_mem ls).2,
   (clampZoomLevel_mem zl).1, (clampZoomLevel_mem zl).2, normalizeFormat_mem fmt⟩

/-- C7: both clamping functions are idempotent: applying the zoom-level
clamp or the lens-size clamp twice equals applying it once. -/
theorem clamping_idempotent :
    (∀ x : Int, clampLensSize (clampLensSize x) = clampLensSize x)
    ∧ (∀ v : ℚ, clampZoomLevel (clampZoomLevel v) = clampZoomLevel v) :=
  ⟨clampLensSize_idem, clampZoomLevel_idem⟩

/-- C8: calling `image_zoom_lens` without the optional arguments uses
lens size 150, zoom level 2.0 and download format `'jpg'`: the emitted
HTML is the one substituted with exactly those values (all three survive
validation unchanged). -/
theorem default_config_values (t url : String) :
    image_zoom_lens t url = substituteParams t url 150 2 "jpg"
    ∧ clampLensSize 150 = 150 ∧ clampZoomLevel 2 = 2 ∧ normalizeFormat "jpg" = "jpg" := by
  refine ⟨?_, by decide, by decide, by decide⟩
  show substituteParams t url (clampLensSize 150) (clampZoomLevel 2) (normalizeFormat "jpg") = _
  rw [(by decide : clampLensSize 150 = 150), (by decide : clampZoomLevel 2 = 2),
    (by decide : normalizeFormat "jpg" = "jpg")]

/-- C9: download-format matching is case-insensitive (the result depends
only on the lowercased input), `'jpeg'` in any casing is accepted as an
alias for `'jpg'`, and the effective format is always exactly `'jpg'` or
`'png'`. -/
theorem format_matching_case_insensitive :
    (∀ s₁ s₂ : String, pyLower s₁ = pyLower s₂ → normalizeFormat s₁ = normalizeFormat s₂)
    ∧ normalizeFormat "jpeg" = "jpg" ∧ normalizeFormat "JPEG" = "jpg"
    ∧ normalizeFormat "Png" = "png"
    ∧ ∀ s : String, normalizeFormat s = "jpg" ∨ normalizeFormat s = "png" := by
  refine ⟨fun s₁ s₂ h => ?_, by decide, by decide, by decide, normalizeFormat_mem⟩
  simp only [normalizeFormat, h]

theorem format_matching_case_insensitive_witness :
    normalizeFormat "PNG" = normalizeFormat "pNg" :=
  format_matching_case_insensitive.1 "PNG" "pNg" (by decide)

/-- C10: validation precedes substitution: the values substituted into
the generated HTML are the clamped/normalized ones, so the emitted
content is unchanged if the inputs are replaced by their clamped forms,
and the substituted lens size and zoom level are always in range. -/
theorem substitution_uses_validated_values (t url : String) (ls : Int) (zl : ℚ) (fmt : String) :
    image_zoom_lens t url ls zl fmt
      = substituteParams t url (clampLensSize ls) (clampZoomLevel zl) (normalizeFormat fmt)
    ∧ image_zoom_lens t url ls zl fmt
      = image_zoom_lens t url (clampLensSize ls) (clampZoomLevel zl) (normalizeFormat fmt)
    ∧ 50 ≤ clampLensSize ls ∧ clampLensSize ls ≤ 300
    ∧ 1 ≤ clampZoomLevel zl ∧ clampZoomLevel zl ≤ 5 := by
  refine ⟨rfl, ?_, (clampLensSize_mem ls).1, (clampLensSize_mem ls).2,
    (clampZoomLevel_mem zl).1, (clampZoomLevel_mem zl).2⟩
  show substituteParams t url (clampLensSize ls) (clampZoomLevel zl) (normalizeFormat fmt)
    = substituteParams t url (clampLensSize (clampLensSize ls))
        (clampZoomLevel (clampZoomLevel zl)) (normalizeFormat (normalizeFormat fmt))
  rw [clampLensSize_idem, clampZoomLevel_idem, normalizeFormat_idem]

end ImageZoomLens
